import Mathlib

/-!
# Verification of the iggy-mcp-server request dispatch layer

Shallow embedding of `src/index.ts`: an MCP server exposing a fixed task
catalog as resources and five tools (`create_note`, `memory_write`,
`list_tools`, `rag_query`, `upload_documents`).

Modelling conventions:
* JavaScript runtime values are modelled by `JSValue`.  The argument bag of a
  tool invocation (`request.params.arguments`) is a `List (String × JSValue)`;
  accessing a missing property yields `JSValue.undefined`, as in JavaScript.
* `String(v)` coercion is `jsToString` (in particular
  `String(undefined) = "undefined"`), truthiness is `jsTruthy`, `Number(v)`
  is `jsToNumber` (numbers are modelled as `Int`; fractional or exponent
  literals do not occur in this program's data).
* `JSON.stringify` is `jsonStringify?`: it returns `none` exactly on
  `undefined` (and we do not model function values except where noted),
  drops object fields whose value is `undefined`, and renders `NaN` as
  `null`.  The `(null, 2)` pretty-printing arguments used at some call
  sites only change whitespace, which no claim concerns, so serialization
  is modelled compactly.
* Thrown `Error`s are modelled by the inductive `RequestError`, one
  constructor per `throw` site, carrying the exact message the source
  builds.
* Observable side effects (`console.log`, `console.error`, outbound
  `fetch`) are returned as an explicit `Effect` trace.
-/

set_option autoImplicit false

namespace IggyMcp

/-- JavaScript runtime values, as far as this program manipulates them. -/
inductive JSValue where
  | undefined
  | null
  | nan
  | bool (b : Bool)
  | num (n : Int)
  | str (s : String)
  | arr (elems : List JSValue)
  | obj (fields : List (String × JSValue))
deriving Repr

/-- JavaScript truthiness: `undefined`, `null`, `NaN`, `false`, `0` and the
empty string are falsy; every array and object is truthy. -/
def jsTruthy : JSValue → Bool
  | .undefined => false
  | .null => false
  | .nan => false
  | .bool b => b
  | .num n => n != 0
  | .str s => s != ""
  | .arr _ => true
  | .obj _ => true

def JSValue.isUndefined : JSValue → Bool
  | .undefined => true
  | _ => false

mutual

/-- The JavaScript `String(v)` coercion. -/
def jsToString : JSValue → String
  | .undefined => "undefined"
  | .null => "null"
  | .nan => "NaN"
  | .bool b => if b then "true" else "false"
  | .num n => toString n
  | .str s => s
  | .arr xs => String.intercalate "," (jsToStringElems xs)
  | .obj _ => "[object Object]"

/-- `Array.prototype.toString` renders `null` and `undefined` elements as
the empty string and coerces the rest. -/
def jsToStringElems : List JSValue → List String
  | [] => []
  | .undefined :: xs => "" :: jsToStringElems xs
  | .null :: xs => "" :: jsToStringElems xs
  | x :: xs => jsToString x :: jsToStringElems xs

end

/-- The JavaScript `Number(v)` coercion, restricted to the integral values
this program meets (`limit` and `timeout` arguments). -/
def jsToNumber : JSValue → JSValue
  | .num n => .num n
  | .nan => .nan
  | .bool b => .num (if b then 1 else 0)
  | .null => .num 0
  | .undefined => .nan
  | .str s => if s.trim = "" then .num 0 else
      match s.trim.toInt? with
      | some n => .num n
      | none => .nan
  | .arr [] => .num 0
  | .arr (x :: xs) => if xs.isEmpty then jsToNumber x else .nan
  | .obj _ => .nan

/-- Escape a string for a JSON literal (quotes and backslashes; the data in
this development contains no control characters). -/
def jsonEscape (s : String) : String :=
  String.join (s.toList.map fun c =>
    if c = '"' ∨ c = '\\' then String.mk ['\\', c] else String.mk [c])

def jsonQuote (s : String) : String := "\"" ++ jsonEscape s ++ "\""

mutual

/-- `JSON.stringify`: `none` on `undefined`; `NaN` serializes as `null`;
object fields with `undefined` values are dropped; `undefined` array
elements become `null`. -/
def jsonStringify? : JSValue → Option String
  | .undefined => none
  | .null => some "null"
  | .nan => some "null"
  | .bool b => some (if b then "true" else "false")
  | .num n => some (toString n)
  | .str s => some (jsonQuote s)
  | .arr xs => some ("[" ++ String.intercalate "," (jsonElems xs) ++ "]")
  | .obj fs => some ("\x7b" ++ String.intercalate "," (jsonFields fs) ++ "\x7d")

def jsonElems : List JSValue → List String
  | [] => []
  | x :: xs => ((jsonStringify? x).getD "null") :: jsonElems xs

def jsonFields : List (String × JSValue) → List String
  | [] => []
  | (k, v) :: fs =>
    match jsonStringify? v with
    | none => jsonFields fs
    | some sv => (jsonQuote k ++ ":" ++ sv) :: jsonFields fs

end

/-- Property access `bag?.k` on an argument bag: a missing property reads as
`undefined`. -/
def bagGet (args : List (String × JSValue)) (k : String) : JSValue :=
  match args.find? (fun kv => kv.1 = k) with
  | some kv => kv.2
  | none => .undefined

/-- Property access `v.k` on an arbitrary value (used for `payload.text`):
only objects carry the properties this program reads. -/
def jsField (v : JSValue) (k : String) : JSValue :=
  match v with
  | .obj fs => bagGet fs k
  | _ => .undefined

/-- The object fields that survive `JSON.stringify` (fields whose value is
`undefined` are dropped), in order. -/
def serializeFields (fs : List (String × JSValue)) : List (String × JSValue) :=
  fs.filter (fun kv => !kv.2.isUndefined)

/-! ## The resource catalog (`tasks`) -/

/-- `type Task = { id: string; title: string; description: string }`. -/
structure Task where
  id : String
  title : String
  description : String
deriving Repr, DecidableEq

/-- The fixed in-memory `tasks` map, as a key/record association list in the
object's (insertion = numeric) iteration order. -/
def taskSeed : List (String × Task) :=
  [("1", ⟨"1", "First Task", "This is task 1"⟩),
   ("2", ⟨"2", "Second Task", "This is task 2"⟩)]

/-- The JSON record `JSON.stringify(task, ...)` serializes. -/
def taskToJS (t : Task) : JSValue :=
  .obj [("id", .str t.id), ("title", .str t.title),
        ("description", .str t.description)]

/-- Wire projection of a task produced by the list-resources handler. -/
structure ResourceDescriptor where
  uri : String
  mimeType : String
  name : String
  description : String
deriving Repr, DecidableEq

/-- The `ListResourcesRequestSchema` handler:
`Object.values(tasks).map(task => ({ uri: task:///id, ... }))`. -/
def listResources (ts : List (String × Task)) : List ResourceDescriptor :=
  (ts.map Prod.snd).map fun t =>
    ⟨"task:///" ++ t.id, "application/json", t.title, "Task: " ++ t.title⟩

/-! ## URL parsing (`new URL(uri)`)

The handler parses the incoming `uri` with the WHATWG `URL` constructor and
reads its `pathname`.  We model the fragment of that parser the program
exercises: a scheme (an ASCII letter followed by letters, digits, `+`, `-`
or `.`, then `:`), optionally `//` and an authority running to the next
`/`, then the path.  A string with no valid scheme prefix makes the
constructor throw (`TypeError: Invalid URL`), modelled as `none`. -/

structure ParsedURL where
  scheme : String
  host : String
  pathname : String
deriving Repr, DecidableEq

def isSchemeChar (c : Char) : Bool :=
  c.isAlpha || c.isDigit || c = '+' || c = '-' || c = '.'

/-- Consume scheme characters until the terminating `:`. -/
def takeSchemeAux (acc : List Char) : List Char → Option (List Char × List Char)
  | [] => none
  | c :: rest =>
    if c = ':' then some (acc.reverse, rest)
    else if isSchemeChar c then takeSchemeAux (c :: acc) rest
    else none

/-- Split off `scheme:` from the character stream; `none` when the string
does not start with a well-formed scheme. -/
def takeScheme : List Char → Option (List Char × List Char)
  | [] => none
  | c :: rest => if c.isAlpha then takeSchemeAux [c] rest else none

/-- `new URL(s)`: `none` models the constructor throwing `Invalid URL`. -/
def parseURL (s : String) : Option ParsedURL :=
  match takeScheme s.toList with
  | none => none
  | some (sch, rest) =>
    let scheme := String.mk (sch.map Char.toLower)
    match rest with
    | '/' :: '/' :: afterAuth =>
      some ⟨scheme, String.mk (afterAuth.takeWhile (fun c => c ≠ '/')),
            String.mk (afterAuth.dropWhile (fun c => c ≠ '/'))⟩
    | _ => some ⟨scheme, "", String.mk rest⟩

/-- `url.pathname.replace(/^\//, '')`: the regex is anchored, so at most one
leading slash is removed. -/
def stripLeadingSlash (s : String) : String :=
  match s.toList with
  | '/' :: rest => String.mk rest
  | _ => s

/-! ## The read-resource handler -/

/-- Thrown `Error`s, one constructor per `throw` site (plus the `TypeError`
the `URL` constructor raises), each carrying the message the source
builds. -/
inductive RequestError where
  /-- `new URL(uri)` threw `TypeError: Invalid URL`. -/
  | invalidURL
  /-- `` throw new Error(`Task ${id} not found`) ``. -/
  | notFound (id : String)
  /-- An argument-validation `throw new Error(msg)` in the call-tool
  handler. -/
  | invalidArguments (msg : String)
  /-- `throw new Error("Unknown tool")`. -/
  | unknownTool
  /-- `` throw new Error(`RAG query failed: ...`) `` or
  `` `Document upload failed: ...` ``. -/
  | upstreamFailure (msg : String)
deriving Repr, DecidableEq

/-- Property names of `Object.prototype`.  The lookup `tasks[id]` on a plain
object literal consults the prototype chain, so these identifiers read as
(truthy) inherited function or object values rather than `undefined`. -/
def objectPrototypeProps : List String :=
  ["constructor", "hasOwnProperty", "isPrototypeOf", "propertyIsEnumerable",
   "toLocaleString", "toString", "valueOf", "__defineGetter__",
   "__defineSetter__", "__lookupGetter__", "__lookupSetter__", "__proto__"]

/-- Outcome of the JavaScript property lookup `tasks[id]`. -/
inductive TaskLookup where
  /-- `id` is an own key of the map: the stored task. -/
  | own (t : Task)
  /-- `id` names an inherited `Object.prototype` member: a truthy
  non-`Task` value. -/
  | inherited (prop : String)
  /-- The property reads as `undefined`. -/
  | absent
deriving Repr, DecidableEq

def tasksLookup (ts : List (String × Task)) (id : String) : TaskLookup :=
  match ts.find? (fun kv => kv.1 = id) with
  | some kv => .own kv.2
  | none => if id ∈ objectPrototypeProps then .inherited id else .absent

/-- What the read-resource handler puts in its single contents block. -/
inductive ReadResult where
  /-- An own entry: `text` is `JSON.stringify(task, null, 2)`. -/
  | taskRecord (t : Task)
  /-- An inherited `Object.prototype` member leaked through the truthiness
  check; `JSON.stringify` of a function is `undefined`, so the block's
  `text` is not a string. -/
  | inheritedValue (prop : String)
deriving Repr, DecidableEq

/-- The `ReadResourceRequestSchema` handler.  The second component is the
trace of identifiers looked up in the catalog (empty when the `URL`
constructor throws before any lookup). -/
def readResource (ts : List (String × Task)) (uri : String) :
    Except RequestError ReadResult × List String :=
  match parseURL uri with
  | none => (.error .invalidURL, [])
  | some u =>
    let id := stripLeadingSlash u.pathname
    match tasksLookup ts id with
    | .own t => (.ok (.taskRecord t), [id])
    | .inherited p => (.ok (.inheritedValue p), [id])
    | .absent => (.error (.notFound id), [id])

/-- Recovering the identifier from a listed URI: parse, then strip the
single leading slash of the pathname — exactly what the read-resource
handler does before its lookup. -/
def extractId (uri : String) : Option String :=
  (parseURL uri).map fun u => stripLeadingSlash u.pathname

/-! ## The tool registry (`ListToolsRequestSchema` handler) -/

/-- One advertised tool: name, description and JSON-schema input
description, exactly as declared in the handler's literal. -/
structure ToolDescriptor where
  name : String
  description : String
  inputSchema : JSValue
deriving Repr

def createNoteSchema : JSValue :=
  .obj [("type", .str "object"),
        ("properties", .obj
          [("title", .obj [("type", .str "string"),
                           ("description", .str "Title of the note")]),
           ("content", .obj [("type", .str "string"),
                             ("description", .str "Text content of the note")])]),
        ("required", .arr [.str "title", .str "content"])]

def memoryWriteSchema : JSValue :=
  .obj [("type", .str "object"),
        ("properties", .obj
          [("source", .obj [("type", .str "string"),
                            ("description", .str "Source identifier")]),
           ("task_id", .obj [("type", .str "string"),
                             ("description", .str "Task identifier")]),
           ("payload", .obj
             [("type", .str "object"),
              ("properties", .obj
                [("text", .obj [("type", .str "string"),
                                ("description", .str "Text content of the memory chunk")]),
                 ("tag", .obj [("type", .str "string"),
                               ("description", .str "Tag for the memory chunk")]),
                 ("timestamp", .obj [("type", .str "string"),
                                     ("format", .str "date-time"),
                                     ("description", .str "Timestamp of the memory chunk")])]),
              ("required", .arr [.str "text", .str "tag", .str "timestamp"])])]),
        ("required", .arr [.str "source", .str "task_id", .str "payload"])]

def listToolsSchema : JSValue :=
  .obj [("type", .str "object"), ("properties", .obj [])]

def ragQuerySchema : JSValue :=
  .obj [("type", .str "object"),
        ("properties", .obj
          [("collection_name", .obj [("type", .str "string"),
                                     ("description", .str "Name of the collection to query")]),
           ("query", .obj [("type", .str "string"),
                           ("description", .str "Query text")]),
           ("limit", .obj [("type", .str "integer"),
                           ("description", .str "Maximum number of results to return")]),
           ("embedding_model", .obj [("type", .str "string"),
                                     ("description", .str "Embedding model to use")]),
           ("timeout", .obj [("type", .str "integer"),
                             ("description", .str "Timeout in seconds")])]),
        ("required", .arr [.str "collection_name", .str "query"])]

def uploadDocumentsSchema : JSValue :=
  .obj [("type", .str "object"),
        ("properties", .obj
          [("collection_name", .obj [("type", .str "string"),
                                     ("description", .str "Name of the collection to upload to")]),
           ("texts", .obj [("type", .str "array"),
                           ("items", .obj [("type", .str "string")]),
                           ("description", .str "List of documents to upload")]),
           ("metadata", .obj [("type", .str "array"),
                              ("items", .obj [("type", .str "object")]),
                              ("description", .str "Optional metadata for the documents")]),
           ("source", .obj [("type", .str "string"),
                            ("description", .str "Optional source information for the documents")]),
           ("embedding_model", .obj [("type", .str "string"),
                                     ("description", .str "Embedding model to use")])]),
        ("required", .arr [.str "collection_name", .str "texts"])]

/-- The static tool list returned by the `ListToolsRequestSchema` handler,
in its declared order. -/
def toolRegistry : List ToolDescriptor :=
  [⟨"create_note", "Create a new note", createNoteSchema⟩,
   ⟨"memory_write", "Write memory chunks to Halcyon", memoryWriteSchema⟩,
   ⟨"list_tools", "List available tools", listToolsSchema⟩,
   ⟨"rag_query", "Query the RAG system", ragQuerySchema⟩,
   ⟨"upload_documents", "Upload documents to the RAG system", uploadDocumentsSchema⟩]

/-! ## The call-tool dispatcher (`CallToolRequestSchema` handler) -/

/-- One `{ type: "text", text: ... }` content block of a tool result. -/
structure ContentBlock where
  type : String
  text : String
deriving Repr, DecidableEq

/-- Observable side effects of one invocation, in order of occurrence. -/
inductive Effect where
  | log (msg : String)
  | logError (msg : String)
  /-- `fetch(url, { method: POST, body: JSON.stringify(obj) })`; `body`
  holds the object literal's fields before serialization (serialization
  drops the `undefined` ones, see `serializeFields`). -/
  | httpPost (url : String) (body : List (String × JSValue))
deriving Repr

/-- The upstream service's answer to the single outbound `fetch` an
invocation may make: `ok`, `statusText`, and the JSON body
`response.json()` yields on success. -/
structure UpstreamResponse where
  ok : Bool
  statusText : String
  body : JSValue
deriving Repr

/-- The JSON array literal serialized by the `list_tools` tool case. -/
def callToolNamesList : List String :=
  ["create_note", "memory_write", "list_tools", "rag_query", "upload_documents"]

/-- Body of the `rag_query` POST: `String`-coerced `collection_name`,
`query` and `embedding_model`; `limit` and `timeout` only when the raw
argument is truthy (otherwise the field holds `undefined`). -/
def ragQueryBody (args : List (String × JSValue)) : List (String × JSValue) :=
  [("collection_name", .str (jsToString (bagGet args "collection_name"))),
   ("query", .str (jsToString (bagGet args "query"))),
   ("limit", if jsTruthy (bagGet args "limit")
             then jsToNumber (bagGet args "limit") else .undefined),
   ("embedding_model", .str (jsToString (bagGet args "embedding_model"))),
   ("timeout", if jsTruthy (bagGet args "timeout")
               then jsToNumber (bagGet args "timeout") else .undefined)]

/-- Body of the `upload_documents` POST: `texts` and `metadata` are passed
through as-is (TypeScript casts, no coercion), the rest is
`String`-coerced. -/
def uploadDocumentsBody (args : List (String × JSValue)) : List (String × JSValue) :=
  [("collection_name", .str (jsToString (bagGet args "collection_name"))),
   ("texts", bagGet args "texts"),
   ("metadata", bagGet args "metadata"),
   ("source", .str (jsToString (bagGet args "source"))),
   ("embedding_model", .str (jsToString (bagGet args "embedding_model")))]

def ragQueryURL : String := "http://localhost:8000/rag/query"

def ragDocumentsURL : String := "http://localhost:8000/rag/documents"

/-- The `CallToolRequestSchema` handler.  `upstream` stands for the answer
the single outbound `fetch` of a delegating tool would receive (unused by
the local tools).  Returns the result (or thrown error) together with the
trace of observable side effects. -/
def callTool (upstream : UpstreamResponse) (name : String)
    (args : List (String × JSValue)) :
    Except RequestError (List ContentBlock) × List Effect :=
  match name with
  | "create_note" =>
    let title := jsToString (bagGet args "title")
    let content := jsToString (bagGet args "content")
    if title = "" ∨ content = "" then
      (.error (.invalidArguments "Title and content are required"), [])
    else
      (.ok [⟨"text", "Created note: " ++ title⟩],
       [.log ("Created note: " ++ title)])
  | "list_tools" =>
    (.ok [⟨"text", (jsonStringify? (.arr (callToolNamesList.map .str))).getD "null"⟩],
     [])
  | "memory_write" =>
    let source := jsToString (bagGet args "source")
    let task_id := jsToString (bagGet args "task_id")
    let payload := bagGet args "payload"
    if source = "" ∨ task_id = "" ∨ !jsTruthy payload then
      -- the inner throw is caught, logged with console.error, and
      -- rethrown wrapped in `Failed to process memory_write: ...`
      (.error (.invalidArguments
         "Failed to process memory_write: Source, task_id, and payload are required"),
       [.logError "Error processing memory_write: Source, task_id, and payload are required"])
    else
      (.ok [⟨"text", "Processed memory chunk from " ++ source ++ " for task " ++ task_id⟩],
       [.log ("Received memory chunk from " ++ source ++ " for task " ++ task_id
              ++ ": " ++ jsToString (jsField payload "text"))])
  | "rag_query" =>
    let post := Effect.httpPost ragQueryURL (ragQueryBody args)
    if upstream.ok then
      (.ok [⟨"text", (jsonStringify? upstream.body).getD "null"⟩], [post])
    else
      (.error (.upstreamFailure ("RAG query failed: " ++ upstream.statusText)), [post])
  | "upload_documents" =>
    let post := Effect.httpPost ragDocumentsURL (uploadDocumentsBody args)
    if upstream.ok then
      (.ok [⟨"text", (jsonStringify? upstream.body).getD "null"⟩], [post])
    else
      (.error (.upstreamFailure ("Document upload failed: " ++ upstream.statusText)), [post])
  | _ => (.error .unknownTool, [])

/-! ## Protocol front: the four request kinds bound to their handlers -/

/-- Mutable server state.  The only data a handler could touch is the
`tasks` map; the registry and handler bindings are fixed at startup. -/
structure ServerState where
  tasks : List (String × Task)
deriving Repr, DecidableEq

def initState : ServerState := ⟨taskSeed⟩

/-- An inbound request.  `callToolReq` carries the answer the upstream
service would give to the invocation's outbound call, so a request
sequence fixes the whole interaction. -/
inductive Request where
  | listResourcesReq
  | readResourceReq (uri : String)
  | listToolsReq
  | callToolReq (name : String) (args : List (String × JSValue))
      (upstream : UpstreamResponse)

/-- A handler's answer to one request. -/
inductive Response where
  | resources (rs : List ResourceDescriptor)
  | readResult (r : Except RequestError ReadResult)
  | toolList (ts : List ToolDescriptor)
  | toolResult (r : Except RequestError (List ContentBlock))
deriving Repr

/-- The fixed request-kind → handler binding, with the state each handler
leaves behind (no handler writes to `tasks`). -/
def handleRequest (s : ServerState) : Request → Response × ServerState
  | .listResourcesReq => (.resources (listResources s.tasks), s)
  | .readResourceReq uri => (.readResult (readResource s.tasks uri).1, s)
  | .listToolsReq => (.toolList toolRegistry, s)
  | .callToolReq name args up => (.toolResult (callTool up name args).1, s)

/-- Run a sequence of requests from a state, keeping the final state. -/
def runRequests (s : ServerState) (rs : List Request) : ServerState :=
  rs.foldl (fun st r => (handleRequest st r).2) s

/-! ## Helper lemmas -/

/-- `Number(v)` always yields a number or `NaN`, never `undefined` — so a
truthy `limit`/`timeout` field survives `JSON.stringify`. -/
theorem jsToNumber_not_undefined : ∀ v : JSValue, (jsToNumber v).isUndefined = false
  | .undefined => rfl
  | .null => rfl
  | .nan => rfl
  | .bool _ => rfl
  | .num _ => rfl
  | .str s => by
    simp only [jsToNumber]
    split
    · rfl
    · split <;> rfl
  | .arr [] => rfl
  | .arr (x :: xs) => by
    simp only [jsToNumber]
    split
    · exact jsToNumber_not_undefined x
    · rfl
  | .obj _ => rfl

theorem isUndefined_str (s : String) : (JSValue.str s).isUndefined = false := rfl

theorem isUndefined_undefined : JSValue.undefined.isUndefined = true := rfl

/-- No handler writes to the server state: the task map, registry and
bindings are read-only after startup. -/
theorem handleRequest_preserves (s : ServerState) (r : Request) :
    (handleRequest s r).2 = s := by
  cases r <;> rfl

/-- Consequently any interleaved request sequence leaves the state as it
started. -/
theorem runRequests_preserves (s : ServerState) (rs : List Request) :
    runRequests s rs = s := by
  induction rs generalizing s with
  | nil => rfl
  | cons r rs ih =>
    show runRequests (handleRequest s r).2 rs = s
    rw [handleRequest_preserves, ih]

/-! ## Claim theorems -/

/-- Claim C1.  With both fields supplied, `create_note` succeeds with the
literal `Created note: A`.  But the claim's second half fails on the code:
omitting `title` does **not** raise the validation error, because
`String(undefined)` is the truthy string `"undefined"`, so the
`!title || !content` guard never fires for omitted fields — the invocation
succeeds with `Created note: undefined`.  (This contradicts the tool's own
declared schema, which marks both fields `required`.) -/
theorem createNote_missing_title_succeeds :
    (callTool ⟨true, "OK", .null⟩ "create_note"
        [("title", .str "A"), ("content", .str "B")]).1
      = .ok [⟨"text", "Created note: A"⟩]
    ∧ (callTool ⟨true, "OK", .null⟩ "create_note" [("content", .str "B")]).1
      = .ok [⟨"text", "Created note: undefined"⟩]
    ∧ (callTool ⟨true, "OK", .null⟩ "create_note"
        [("title", .str "A"), ("content", .str "B")]).1
      ≠ .error (.invalidArguments "Title and content are required") :=
  ⟨rfl, rfl, fun h => Except.noConfusion h⟩

/-- Claim C2.  `memory_write` never validates the `payload` object's inner
fields: with `payload = {}` (missing `text`, `tag` and `timestamp`) the
invocation succeeds, and with `source` omitted it also succeeds (coerced to
the truthy string `"undefined"`) — no `InvalidArguments` error naming the
offending field is ever produced for these inputs, contradicting the
declared schema's `required` lists. -/
theorem memoryWrite_payload_not_validated :
    (callTool ⟨true, "OK", .null⟩ "memory_write"
        [("source", .str "s"), ("task_id", .str "t"), ("payload", .obj [])]).1
      = .ok [⟨"text", "Processed memory chunk from s for task t"⟩]
    ∧ (callTool ⟨true, "OK", .null⟩ "memory_write"
        [("task_id", .str "t"),
         ("payload", .obj [("text", .str "x"), ("tag", .str "g"),
                           ("timestamp", .str "2024-01-01T00:00:00Z")])]).1
      = .ok [⟨"text", "Processed memory chunk from undefined for task t"⟩] :=
  ⟨rfl, rfl⟩

/-- Claim C4.  A tool name outside the registry's five always falls to the
`default` branch: the result is the `Unknown tool` error and the effect
trace is empty (no log, no outbound call).  `callTool` is a total function
into result-or-error, so no branch silently no-ops. -/
theorem unknown_tool_rejected (up : UpstreamResponse) (name : String)
    (args : List (String × JSValue))
    (h : name ∉ toolRegistry.map ToolDescriptor.name) :
    callTool up name args = (.error .unknownTool, []) := by
  unfold callTool
  split
  all_goals first
    | rfl
    | exact absurd (by decide) h

/-- Witness for C4: the spec's own example name `delete_everything`. -/
theorem unknown_tool_rejected_witness :
    ("delete_everything" ∉ toolRegistry.map ToolDescriptor.name)
    ∧ callTool ⟨true, "OK", .null⟩ "delete_everything" []
      = (.error .unknownTool, []) :=
  ⟨by decide, unknown_tool_rejected ⟨true, "OK", .null⟩ "delete_everything" [] (by decide)⟩

/-- Claim C6.  When the upstream answers `rag_query` with a non-success
status, the invocation fails with the labelled upstream error carrying the
status text, and the effect trace holds exactly the one outbound POST — no
retry. -/
theorem ragQuery_upstream_failure (up : UpstreamResponse)
    (args : List (String × JSValue)) (h : up.ok = false) :
    callTool up "rag_query" args
      = (.error (.upstreamFailure ("RAG query failed: " ++ up.statusText)),
         [.httpPost ragQueryURL (ragQueryBody args)]) := by
  obtain ⟨ok, st, body⟩ := up
  cases h
  rfl

/-- Witness for C6: an HTTP 500 answer. -/
theorem ragQuery_upstream_failure_witness :
    (UpstreamResponse.mk false "Internal Server Error" .null).ok = false
    ∧ callTool ⟨false, "Internal Server Error", .null⟩ "rag_query"
        [("collection_name", .str "c"), ("query", .str "q")]
      = (.error (.upstreamFailure "RAG query failed: Internal Server Error"),
         [.httpPost ragQueryURL
            (ragQueryBody [("collection_name", .str "c"), ("query", .str "q")])]) :=
  ⟨rfl, ragQuery_upstream_failure ⟨false, "Internal Server Error", .null⟩
    [("collection_name", .str "c"), ("query", .str "q")] rfl⟩

/-- Claim C8.  The JSON text block the `list_tools` tool returns encodes
exactly the registry's declared names, element for element and in order:
the two representations agree. -/
theorem listTools_lockstep :
    callToolNamesList = toolRegistry.map ToolDescriptor.name
    ∧ ∀ (up : UpstreamResponse) (args : List (String × JSValue)),
        callTool up "list_tools" args
          = (.ok [⟨"text", (jsonStringify?
                (.arr ((toolRegistry.map ToolDescriptor.name).map .str))).getD "null"⟩],
             []) :=
  ⟨rfl, fun _ _ => rfl⟩

/-- Claim C3 counterexample.  The caller leaves `embedding_model` undefined,
yet the serialized `rag_query` body carries
`"embedding_model": "undefined"`: the `String(...)` coercion runs before
serialization, so the field is a placeholder string, not absent. -/
theorem delegating_body_undefined_sent :
    bagGet [("collection_name", JSValue.str "c"), ("query", JSValue.str "q")]
        "embedding_model" = JSValue.undefined
    ∧ (callTool ⟨false, "Internal Server Error", .null⟩ "rag_query"
        [("collection_name", .str "c"), ("query", .str "q")]).2
      = [.httpPost ragQueryURL
          (ragQueryBody [("collection_name", .str "c"), ("query", .str "q")])]
    ∧ serializeFields
        (ragQueryBody [("collection_name", .str "c"), ("query", .str "q")])
      = [("collection_name", .str "c"), ("query", .str "q"),
         ("embedding_model", .str "undefined")] :=
  ⟨rfl, rfl, rfl⟩

/-- Claim C3 as amended.  Each delegating invocation posts exactly one body.
`limit` and `timeout` (for `rag_query`) and `texts` and `metadata` (for
`upload_documents`) are indeed dropped from the serialized body when left
undefined (`limit`/`timeout` whenever the raw argument is falsy), but
`embedding_model` — and, for `upload_documents`, `source` — are always
serialized, as the string `"undefined"` when the caller omitted them. -/
theorem delegating_body_fields (up : UpstreamResponse)
    (args : List (String × JSValue)) :
    (callTool up "rag_query" args).2
      = [.httpPost ragQueryURL (ragQueryBody args)]
    ∧ (serializeFields (ragQueryBody args)).map Prod.fst
      = ["collection_name", "query"]
        ++ (if jsTruthy (bagGet args "limit") then ["limit"] else [])
        ++ ["embedding_model"]
        ++ (if jsTruthy (bagGet args "timeout") then ["timeout"] else [])
    ∧ (callTool up "upload_documents" args).2
      = [.httpPost ragDocumentsURL (uploadDocumentsBody args)]
    ∧ (serializeFields (uploadDocumentsBody args)).map Prod.fst
      = ["collection_name"]
        ++ (if (bagGet args "texts").isUndefined then [] else ["texts"])
        ++ (if (bagGet args "metadata").isUndefined then [] else ["metadata"])
        ++ ["source", "embedding_model"] := by
  obtain ⟨ok, st, body⟩ := up
  refine ⟨?_, ?_, ?_, ?_⟩
  · cases ok <;> rfl
  · by_cases hl : jsTruthy (bagGet args "limit") <;>
      by_cases ht : jsTruthy (bagGet args "timeout") <;>
      simp [serializeFields, ragQueryBody, hl, ht, isUndefined_str,
            isUndefined_undefined, jsToNumber_not_undefined]
  · cases ok <;> rfl
  · by_cases htx : (bagGet args "texts").isUndefined = true <;>
      by_cases hm : (bagGet args "metadata").isUndefined = true <;>
      simp [serializeFields, uploadDocumentsBody, htx, hm, isUndefined_str,
            isUndefined_undefined]

/-- Claim C5.  Every descriptor the list-resources handler issues carries
the URI `task:///<id>`; stripping the scheme prefix recovers the identifier
exactly, and reading that URI returns the very task record, whose `id`
field equals the identifier. -/
theorem resource_roundtrip (d : ResourceDescriptor)
    (h : d ∈ listResources taskSeed) :
    ∃ t : Task, d.uri = "task:///" ++ t.id
      ∧ extractId d.uri = some t.id
      ∧ (readResource taskSeed d.uri).1 = .ok (.taskRecord t)
      ∧ jsField (taskToJS t) "id" = .str t.id := by
  simp only [listResources, taskSeed, List.map_cons, List.map_nil,
    List.mem_cons, List.not_mem_nil, or_false] at h
  rcases h with h | h <;> subst h
  · exact ⟨⟨"1", "First Task", "This is task 1"⟩, rfl, rfl, rfl, rfl⟩
  · exact ⟨⟨"2", "Second Task", "This is task 2"⟩, rfl, rfl, rfl, rfl⟩

/-- Witness for C5: the first issued descriptor. -/
theorem resource_roundtrip_witness :
    ((⟨"task:///1", "application/json", "First Task", "Task: First Task"⟩ :
        ResourceDescriptor) ∈ listResources taskSeed)
    ∧ ∃ t : Task,
        (⟨"task:///1", "application/json", "First Task", "Task: First Task"⟩ :
          ResourceDescriptor).uri = "task:///" ++ t.id
        ∧ extractId (⟨"task:///1", "application/json", "First Task",
            "Task: First Task"⟩ : ResourceDescriptor).uri = some t.id
        ∧ (readResource taskSeed (⟨"task:///1", "application/json",
            "First Task", "Task: First Task"⟩ : ResourceDescriptor).uri).1
          = .ok (.taskRecord t)
        ∧ jsField (taskToJS t) "id" = .str t.id :=
  ⟨by decide,
   resource_roundtrip
     ⟨"task:///1", "application/json", "First Task", "Task: First Task"⟩
     (by decide)⟩

/-- Claim C7.  The identifier `toString` is absent from the catalog, yet
reading `task:///toString` does **not** yield the not-found error: the
lookup `tasks[id]` consults the prototype chain, finds the truthy inherited
`Object.prototype.toString`, and the handler returns a success-shaped
contents block instead. -/
theorem readResource_prototype_leak :
    ("toString" ∉ taskSeed.map Prod.fst)
    ∧ (readResource taskSeed "task:///toString").1
      = .ok (.inheritedValue "toString")
    ∧ (readResource taskSeed "task:///toString").1
      ≠ .error (.notFound "toString") :=
  ⟨by decide, rfl, fun h => Except.noConfusion h⟩

/-- Claim C9.  After any interleaved request sequence the list-tools
handler still answers with the same static registry: exactly five tools,
each with its name, description and input schema, in declared order. -/
theorem listTools_fixed (pre : List Request) :
    (handleRequest (runRequests initState pre) Request.listToolsReq).1
      = .toolList toolRegistry
    ∧ toolRegistry.map ToolDescriptor.name
      = ["create_note", "memory_write", "list_tools", "rag_query",
         "upload_documents"]
    ∧ toolRegistry.length = 5 := by
  refine ⟨?_, rfl, rfl⟩
  rw [runRequests_preserves]
  rfl

/-- Claim C10.  A string the URL constructor rejects makes read-resource
fail with the invalid-URL error — a distinct kind from not-found — before
any catalog lookup (the lookup trace is empty); and the identifier
extraction removes exactly one leading slash from the parsed pathname. -/
theorem readResource_invalid_uri :
    (∀ uri, parseURL uri = none →
      readResource taskSeed uri = (.error .invalidURL, []))
    ∧ (∀ id, RequestError.invalidURL ≠ RequestError.notFound id)
    ∧ (∀ s, stripLeadingSlash ("/" ++ s) = s)
    ∧ (∀ s, stripLeadingSlash ("/" ++ ("/" ++ s)) = "/" ++ s) := by
  have hstrip : ∀ s : String, stripLeadingSlash ("/" ++ s) = s := by
    intro s
    cases s
    rfl
  refine ⟨?_, ?_, hstrip, fun s => hstrip ("/" ++ s)⟩
  · intro uri h
    unfold readResource
    rw [h]
  · intro id h
    exact RequestError.noConfusion h

/-- Witness for C10: a string with no scheme. -/
theorem readResource_invalid_uri_witness :
    parseURL "not a url" = none
    ∧ readResource taskSeed "not a url" = (.error .invalidURL, []) :=
  ⟨rfl, readResource_invalid_uri.1 "not a url" rfl⟩

end IggyMcp
